import Mathlib

/-
Verification of the outcome-prediction and risk-scoring engine of the
digital-twin health dashboard (src/ml_predictions.py and the ML helper
functions of src/dashboard_server_fixed.py).

Shallow embedding conventions:
* A pandas row is a `Row`: every column is an `Option` field; `.get(col, d)`
  is `Option.getD`, direct indexing `row[col]` raises `KeyError` when the
  field is `none` (modelled in the `Except String` monad).
* Python floats are modelled as rationals; `round(x, k)` is `pyround x k`
  (round half to even, as Python does), `int(x)` is `pytrunc x`.
* `scipy.stats.linregress` returns irrational statistics (stderr, rvalue),
  so the regression is abstracted as a parameter `lr : LinRegress`; it may
  also fail (scipy raises on degenerate input), modelled by `Except`.
* A `try`/`except` block is modelled by matching on the `Except` value of
  the guarded body.
-/

/-- Round half to even to the nearest integer, as Python's builtin `round`. -/
def rne (q : ℚ) : ℤ :=
  if q - ⌊q⌋ < 1/2 then ⌊q⌋
  else if 1/2 < q - ⌊q⌋ then ⌊q⌋ + 1
  else if ⌊q⌋ % 2 = 0 then ⌊q⌋ else ⌊q⌋ + 1

/-- Python `round(q, k)`: round to `k` decimal digits, half to even. -/
def pyround (q : ℚ) (k : ℕ) : ℚ :=
  (rne (q * 10 ^ k) : ℚ) / 10 ^ k

/-- Python `int(q)`: truncation toward zero. -/
def pytrunc (q : ℚ) : ℤ :=
  if 0 ≤ q then ⌊q⌋ else -⌊-q⌋

theorem rne_eq_floor_or_succ (q : ℚ) : rne q = ⌊q⌋ ∨ rne q = ⌊q⌋ + 1 := by
  unfold rne
  split
  · exact Or.inl rfl
  · split
    · exact Or.inr rfl
    · split
      · exact Or.inl rfl
      · exact Or.inr rfl

theorem int_le_rne {n : ℤ} {q : ℚ} (h : (n : ℚ) ≤ q) : n ≤ rne q := by
  have hfl : n ≤ ⌊q⌋ := Int.le_floor.mpr h
  rcases rne_eq_floor_or_succ q with h1 | h1 <;> omega

theorem rne_le_int {n : ℤ} {q : ℚ} (h : q ≤ (n : ℚ)) : rne q ≤ n := by
  have hfl : ⌊q⌋ ≤ n := by
    have := Int.floor_le_floor h
    simpa using this
  rcases rne_eq_floor_or_succ q with h1 | h1
  · omega
  · -- in the +1 branches the fractional part is at least 1/2
    by_cases hlt : ⌊q⌋ < n
    · omega
    · have heq : ⌊q⌋ = n := by omega
      have hr : ¬(q - ⌊q⌋ < 1/2) := by
        unfold rne at h1
        by_contra hc
        simp only [hc, if_pos] at h1
        omega
      have hq2 : (⌊q⌋ : ℚ) + 1/2 ≤ q := by
        push_neg at hr
        linarith
      have : (n : ℚ) + 1/2 ≤ q := by rw [heq] at hq2; exact hq2
      linarith

theorem le_pyround {a : ℤ} {q : ℚ} {k : ℕ} (h : (a : ℚ) ≤ q * 10 ^ k) :
    (a : ℚ) / 10 ^ k ≤ pyround q k := by
  unfold pyround
  have hk : (0 : ℚ) < 10 ^ k := by positivity
  have := int_le_rne h
  have hcast : (a : ℚ) ≤ (rne (q * 10 ^ k) : ℚ) := by exact_mod_cast this
  exact div_le_div_of_nonneg_right hcast hk.le

theorem pyround_le {a : ℤ} {q : ℚ} {k : ℕ} (h : q * 10 ^ k ≤ (a : ℚ)) :
    pyround q k ≤ (a : ℚ) / 10 ^ k := by
  unfold pyround
  have hk : (0 : ℚ) < 10 ^ k := by positivity
  have := rne_le_int h
  have hcast : (rne (q * 10 ^ k) : ℚ) ≤ (a : ℚ) := by exact_mod_cast this
  exact div_le_div_of_nonneg_right hcast hk.le

/-- A pandas row of the cached adult/child longitudinal tables.  Every column
is optional: `none` models an absent column (or missing cell).  Dates are
integer day numbers; measurements and flags are rationals. -/
structure Row where
  person_id : Option String := none
  child_id : Option String := none
  date : Option ℤ := none
  sistol : Option ℚ := none
  diastol : Option ℚ := none
  HAZ : Option ℚ := none
  age : Option ℚ := none
  usia : Option ℚ := none
  usia_bulan : Option ℚ := none
  on_treatment : Option ℚ := none
  treatment_months : Option ℚ := none
  adherence_current : Option ℚ := none
  diabetes_koin : Option ℚ := none
  perokok : Option ℚ := none
  BMI : Option ℚ := none
  on_program : Option ℚ := none
  program_months : Option ℚ := none
  anemia_hb_gdl : Option ℚ := none
  ASI_eksklusif : Option ℚ := none
  mp_asi_memadai : Option ℚ := none
  air_bersih : Option ℚ := none
  jamban_sehat : Option ℚ := none
  deriving DecidableEq, Repr

/-- Result record of `scipy.stats.linregress`: the slope together with the
standard error and the correlation coefficient of the fit. -/
structure LinTrend where
  slope : ℚ
  stderr : ℚ
  rvalue : ℚ
  deriving DecidableEq, Repr

/-- The regression routine, abstracted: `scipy.stats.linregress` over
(elapsed-time, value) pairs.  It may raise (e.g. on identical x values),
hence the `Except`. -/
abbrev LinRegress := List (ℚ × ℚ) → Except String LinTrend

/-- Lift a possibly missing column value into the error monad: direct pandas
indexing raises `KeyError` when the column is absent. -/
def ofCol (o : Option α) (msg : String) : Except String α :=
  match o with
  | some a => .ok a
  | none => .error msg

/-- Insert a row into a list sorted ascending by date (dates present). -/
def sortInsert (r : Row) : List Row → List Row
  | [] => [r]
  | x :: xs =>
    if r.date.getD 0 ≤ x.date.getD 0 then r :: x :: xs else x :: sortInsert r xs

/-- Insertion sort ascending by the date column, modelling
`df.sort_values('date')` once the date column is known to exist. -/
def sortByDate (l : List Row) : List Row :=
  l.foldr sortInsert []

/-- `df.sort_values('date')`: raises `KeyError` when the date column is
absent (modelled as: some row lacks a date). -/
def sortByDateE (l : List Row) : Except String (List Row) :=
  if l.all (fun r => r.date.isSome) then .ok (sortByDate l) else .error "KeyError: date"

theorem length_sortInsert (r : Row) (l : List Row) :
    (sortInsert r l).length = l.length + 1 := by
  induction l with
  | nil => rfl
  | cons x xs ih =>
    unfold sortInsert
    split
    · simp
    · simp [ih]

theorem length_sortByDate (l : List Row) : (sortByDate l).length = l.length := by
  induction l with
  | nil => rfl
  | cons x xs ih =>
    show (sortInsert x (sortByDate xs)).length = xs.length + 1
    rw [length_sortInsert, ih]

theorem sortByDate_ne_nil {l : List Row} (h : l ≠ []) : sortByDate l ≠ [] := by
  intro hc
  apply h
  have := length_sortByDate l
  rw [hc] at this
  exact List.length_eq_zero.mp this.symm

/-! ## Adult blood-pressure pipeline (`HealthOutcomePredictor`) -/

/-- Feature mapping produced by `_extract_bp_features`.  The unused
`sex` and `bp_variability` entries (the latter an irrational standard
deviation) are omitted: no downstream code reads them. -/
structure BPFeatures where
  age : ℚ
  on_treatment : ℚ
  treatment_months : ℚ
  adherence : ℚ
  diabetes : ℚ
  smoking : ℚ
  bmi : ℚ
  baseline_systolic : ℚ
  baseline_diastolic : ℚ
  data_points : ℕ
  deriving DecidableEq, Repr

/-- `_extract_bp_features(person_data)`: reads the last row with `.get`
defaults (age 50, everything else 0, BMI 25) and the first row's
`sistol`/`diastol` columns by direct indexing (KeyError when absent). -/
def extract_bp_features (person_data : List Row) : Except String BPFeatures := do
  let latest ← ofCol person_data.getLast? "IndexError"
  let first ← ofCol person_data.head? "IndexError"
  let bs ← ofCol first.sistol "KeyError: sistol"
  let bd ← ofCol first.diastol "KeyError: diastol"
  .ok { age := latest.age.getD (latest.usia.getD 50)
        on_treatment := latest.on_treatment.getD 0
        treatment_months := latest.treatment_months.getD 0
        adherence := latest.adherence_current.getD 0
        diabetes := latest.diabetes_koin.getD 0
        smoking := latest.perokok.getD 0
        bmi := latest.BMI.getD 25
        baseline_systolic := bs
        baseline_diastolic := bd
        data_points := person_data.length }

/-- `_apply_clinical_adjustments`: additive age / treatment / diabetes /
smoking terms, then clamping to the physiological bounds. -/
def apply_clinical_adjustments (systolic diastolic : ℚ) (features : BPFeatures)
    (months : ℤ) : ℚ × ℚ :=
  let age_adjustment := (features.age - 50) * (1/5) * months
  let treatment_effect :=
    if features.on_treatment ≠ 0 ∧ 0 < features.adherence then
      -15 * features.adherence * min 1 (features.treatment_months / 6)
    else 0
  let diabetes_effect := 3 * features.diabetes * months
  let smoking_effect := 2 * features.smoking * months
  let adjusted_systolic := systolic + age_adjustment + treatment_effect
    + diabetes_effect + smoking_effect
  let adjusted_diastolic := diastolic + age_adjustment * (3/5)
    + treatment_effect * (7/10) + diabetes_effect * (3/5)
  (max 90 (min 250 adjusted_systolic), max 60 (min 130 adjusted_diastolic))

/-- `_calculate_bp_confidence`: blend of data volume, standard-error and
R-squared terms, clamped to [0.1, 1]. -/
def calculate_bp_confidence (data : List Row) (sys_trend dia_trend : LinTrend) : ℚ :=
  let data_confidence := min 1 ((data.length : ℚ) / 10)
  let trend_confidence := 1 / (1 + |sys_trend.stderr| + |dia_trend.stderr|)
  let r_squared_confidence := (sys_trend.rvalue ^ 2 + dia_trend.rvalue ^ 2) / 2
  min 1 (max (1/10)
    (data_confidence * (3/10) + trend_confidence * (3/10) + r_squared_confidence * (2/5)))

/-- `_get_bp_category`. -/
def get_bp_category (systolic diastolic : ℚ) : String :=
  if 180 ≤ systolic ∨ 110 ≤ diastolic then "Hipertensi Tahap 3 (Parah)"
  else if 160 ≤ systolic ∨ 100 ≤ diastolic then "Hipertensi Tahap 2"
  else if 140 ≤ systolic ∨ 90 ≤ diastolic then "Hipertensi Tahap 1"
  else if 130 ≤ systolic ∨ 85 ≤ diastolic then "Tinggi Normal"
  else if 120 ≤ systolic ∨ 80 ≤ diastolic then "Normal"
  else "Optimal"

/-- Result of `_assess_bp_risk`. -/
structure BPRisk where
  risk_level : String
  risk_label : String
  risk_score : ℚ
  category : String
  deriving DecidableEq, Repr

/-- `_assess_bp_risk(prediction, features)`. -/
def assess_bp_risk (systolic diastolic : ℚ) (features : BPFeatures) : BPRisk :=
  let base : String × ℚ :=
    if 180 ≤ systolic ∨ 110 ≤ diastolic then ("very_high", 9/10)
    else if 160 ≤ systolic ∨ 100 ≤ diastolic then ("high", 7/10)
    else if 140 ≤ systolic ∨ 90 ≤ diastolic then ("moderate", 1/2)
    else ("low", 1/5)
  let s1 := if features.diabetes ≠ 0 then base.2 + 1/5 else base.2
  let s2 := if features.smoking ≠ 0 then s1 + 3/20 else s1
  let s3 := if 65 < features.age then s2 + 1/10 else s2
  let label :=
    if base.1 = "very_high" then "Sangat Tinggi"
    else if base.1 = "high" then "Tinggi"
    else if base.1 = "moderate" then "Sedang"
    else "Rendah"
  { risk_level := base.1
    risk_label := label
    risk_score := pyround (min 1 s3) 3
    category := get_bp_category systolic diastolic }

/-- `_generate_bp_recommendations(prediction, features)`; order is the
insertion order of the source. -/
def generate_bp_recommendations (systolic : ℚ) (features : BPFeatures) : List String :=
  (if 160 ≤ systolic then
      ["Segera konsultasi medis diperlukan", "Pertimbangkan rawat inap jika bergejala"]
    else if 140 ≤ systolic then
      ["Tingkatkan pengobatan antihipertensi", "Pantau tekanan darah setiap minggu"]
    else [])
  ++ (if features.on_treatment = 0 ∧ 140 ≤ systolic then
        ["Mulai pengobatan antihipertensi"] else [])
  ++ (if features.smoking ≠ 0 then
        ["Konseling berhenti merokok - prioritas tinggi"] else [])
  ++ (if features.diabetes ≠ 0 then
        ["Optimalkan manajemen diabetes", "Target tekanan darah <130/80 mmHg"] else [])
  ++ (if features.adherence < 4/5 then
        ["Tingkatkan kepatuhan pengobatan melalui edukasi"] else [])
  ++ ["Aktivitas fisik teratur dan modifikasi pola makan"]

/-- The dictionary returned by `_predict_bp_heuristic`: current and rounded
predicted readings, an unrounded fixed-width confidence interval, the
`'method': 'heuristic'` tag and static recommendations. -/
structure BPHeurResult where
  person_id : String
  current_sys : ℚ
  current_dia : ℚ
  predicted_sys : ℚ
  predicted_dia : ℚ
  ci_sys_lo : ℚ
  ci_sys_hi : ℚ
  ci_dia_lo : ℚ
  ci_dia_hi : ℚ
  method : String
  recommendations : List String
  deriving DecidableEq, Repr

/-- `_predict_bp_heuristic(latest_data, months_ahead)`. -/
def predict_bp_heuristic (latest : Row) (months_ahead : ℤ) : BPHeurResult :=
  let current_sys := latest.sistol.getD 140
  let current_dia := latest.diastol.getD 90
  let on_treat := latest.on_treatment.getD 0
  let predicted_sys :=
    if on_treat ≠ 0 then current_sys - 2 else current_sys + (months_ahead : ℚ) * (1/2)
  let predicted_dia :=
    if on_treat ≠ 0 then current_dia - 1 else current_dia + (months_ahead : ℚ) * (3/10)
  { person_id := latest.person_id.getD "unknown"
    current_sys := current_sys
    current_dia := current_dia
    predicted_sys := pyround predicted_sys 1
    predicted_dia := pyround predicted_dia 1
    ci_sys_lo := predicted_sys - 15
    ci_sys_hi := predicted_sys + 15
    ci_dia_lo := predicted_dia - 10
    ci_dia_hi := predicted_dia + 10
    method := "heuristic"
    recommendations := ["Disarankan pemantauan rutin", "Pertimbangkan perubahan gaya hidup"] }

/-- The dictionary returned by the trend-based branch of
`predict_bp_progression`. -/
structure BPTrendResult where
  person_id : String
  current_sys : ℚ
  current_dia : ℚ
  predicted_sys : ℚ
  predicted_dia : ℚ
  systolic_trend_per_month : ℚ
  diastolic_trend_per_month : ℚ
  trend_confidence : ℚ
  risk : BPRisk
  ci_sys_lo : ℚ
  ci_sys_hi : ℚ
  ci_dia_lo : ℚ
  ci_dia_hi : ℚ
  recommendations : List String
  deriving DecidableEq, Repr

/-- Construction of the trend-branch dictionary from the adjusted
prediction and the confidence value. -/
def mkBPTrendResult (person_id : String) (cur_s cur_d pred_s pred_d : ℚ)
    (sys_trend dia_trend : LinTrend) (confidence : ℚ) (features : BPFeatures) :
    BPTrendResult :=
  { person_id := person_id
    current_sys := cur_s
    current_dia := cur_d
    predicted_sys := pyround pred_s 1
    predicted_dia := pyround pred_d 1
    systolic_trend_per_month := pyround (sys_trend.slope * 30) 2
    diastolic_trend_per_month := pyround (dia_trend.slope * 30) 2
    trend_confidence := pyround confidence 3
    risk := assess_bp_risk pred_s pred_d features
    ci_sys_lo := pyround (pred_s - 10 * (1 - confidence)) 1
    ci_sys_hi := pyround (pred_s + 10 * (1 - confidence)) 1
    ci_dia_lo := pyround (pred_d - 7 * (1 - confidence)) 1
    ci_dia_hi := pyround (pred_d + 7 * (1 - confidence)) 1
    recommendations := generate_bp_recommendations pred_s features }

/-- The regression points `(days_since_start, column value)` of one column:
`KeyError` when the column is absent from some row. -/
def bpPoints (sorted : List Row) (f : Row → Option ℚ) (msg : String) :
    Except String (List (ℚ × ℚ)) :=
  let dmin := ((sorted.filterMap (fun r => r.date)).min?).getD 0
  sorted.mapM (fun r =>
    match f r with
    | some v => Except.ok (((r.date.getD 0 - dmin : ℤ) : ℚ), v)
    | none => Except.error msg)

/-- The trend-based body of `predict_bp_progression` (everything after the
length guard); any raised error is caught by the surrounding `except`. -/
def bpTrendPath (lr : LinRegress) (sorted : List Row) (latest : Row)
    (months_ahead : ℤ) : Except String BPTrendResult := do
  let features ← extract_bp_features sorted
  let sysPts ← bpPoints sorted (fun r => r.sistol) "KeyError: sistol"
  let diaPts ← bpPoints sorted (fun r => r.diastol) "KeyError: diastol"
  let systolic_trend ← lr sysPts
  let diastolic_trend ← lr diaPts
  let latest_sys ← ofCol latest.sistol "KeyError: sistol"
  let latest_dia ← ofCol latest.diastol "KeyError: diastol"
  let days_future : ℚ := (months_ahead : ℚ) * 30
  let predicted_systolic := latest_sys + systolic_trend.slope * days_future
  let predicted_diastolic := latest_dia + diastolic_trend.slope * days_future
  let prediction := apply_clinical_adjustments predicted_systolic predicted_diastolic
    features months_ahead
  let confidence := calculate_bp_confidence sorted systolic_trend diastolic_trend
  let pid ← ofCol latest.person_id "KeyError: person_id"
  .ok (mkBPTrendResult pid latest_sys latest_dia prediction.1 prediction.2
    systolic_trend diastolic_trend confidence features)

/-- Either branch of `predict_bp_progression`. -/
inductive BPResult where
  | trend (t : BPTrendResult)
  | heuristic (h : BPHeurResult)
  deriving DecidableEq, Repr

/-- The `except` handler of `predict_bp_progression`: re-read the last row
(`IndexError` on an empty frame, which propagates) and return the heuristic
prediction. -/
def bpExceptFallback (person_data : List Row) (months_ahead : ℤ) :
    Except String BPResult :=
  match person_data.getLast? with
  | none => .error "IndexError"
  | some latest => .ok (.heuristic (predict_bp_heuristic latest months_ahead))

/-- The guarded body of `predict_bp_progression` on the sorted frame:
heuristic when fewer than 2 observations, otherwise the trend path with any
raised error degraded to the heuristic by the handler. -/
def bpFromSorted (lr : LinRegress) (sorted : List Row) (months_ahead : ℤ) :
    Except String BPResult :=
  match sorted.getLast? with
  | none => .error "IndexError"
  | some latest =>
    if sorted.length < 2 then
      .ok (.heuristic (predict_bp_heuristic latest months_ahead))
    else
      match bpTrendPath lr sorted latest months_ahead with
      | .ok t => .ok (.trend t)
      | .error _ => .ok (.heuristic (predict_bp_heuristic latest months_ahead))

/-- `predict_bp_progression(person_data, months_ahead)`.  The source wraps the
whole body in `try`/`except`.  When `sort_values` itself raises (no date
column) the handler sees the unsorted frame. -/
def predict_bp_progression (lr : LinRegress) (person_data : List Row)
    (months_ahead : ℤ) : Except String BPResult :=
  match sortByDateE person_data with
  | .error _ => bpExceptFallback person_data months_ahead
  | .ok sorted => bpFromSorted lr sorted months_ahead

/-! ## Child HAZ pipeline -/

/-- Feature mapping produced by `_extract_haz_features` (the unused `sex`
and irrational `haz_variability` entries are omitted). -/
structure HazFeatures where
  age_months : ℚ
  on_program : ℚ
  program_months : ℚ
  hemoglobin : ℚ
  exclusive_bf : ℚ
  complementary_feeding : ℚ
  clean_water : ℚ
  sanitation : ℚ
  baseline_haz : ℚ
  data_points : ℕ
  deriving DecidableEq, Repr

/-- `_extract_haz_features(child_data)`. -/
def extract_haz_features (child_data : List Row) : Except String HazFeatures := do
  let latest ← ofCol child_data.getLast? "IndexError"
  let first ← ofCol child_data.head? "IndexError"
  let bh ← ofCol first.HAZ "KeyError: HAZ"
  .ok { age_months := latest.usia_bulan.getD 24
        on_program := latest.on_program.getD 0
        program_months := latest.program_months.getD 0
        hemoglobin := latest.anemia_hb_gdl.getD 12
        exclusive_bf := latest.ASI_eksklusif.getD 0
        complementary_feeding := latest.mp_asi_memadai.getD 0
        clean_water := latest.air_bersih.getD 0
        sanitation := latest.jamban_sehat.getD 0
        baseline_haz := bh
        data_points := child_data.length }

/-- `_apply_growth_adjustments`: age-decayed program effect plus
environmental and hemoglobin terms, clamped to [-5, 3]. -/
def apply_growth_adjustments (haz : ℚ) (features : HazFeatures) (months : ℤ) : ℚ :=
  let age_factor := max (1/10) (1 - features.age_months / 60)
  let program_effect :=
    if features.on_program ≠ 0 then
      (3/10) * min 1 (features.program_months / 12) * age_factor * months / 6
    else 0
  let water_sanitation_effect :=
    (1/10) * (features.clean_water + features.sanitation) * months / 6
  let nutrition_effect := (3/20) * features.complementary_feeding * months / 6
  let hb_effect := (1/10) * max 0 ((features.hemoglobin - 11) / 4) * months / 6
  max (-5) (min 3
    (haz + program_effect + water_sanitation_effect + nutrition_effect + hb_effect))

/-- `_calculate_haz_confidence`. -/
def calculate_haz_confidence (data : List Row) (haz_trend : LinTrend) : ℚ :=
  let data_confidence := min 1 ((data.length : ℚ) / 8)
  let trend_confidence := 1 / (1 + |haz_trend.stderr|)
  let r_squared_confidence := haz_trend.rvalue ^ 2
  min 1 (max (1/10)
    (data_confidence * (2/5) + trend_confidence * (3/10) + r_squared_confidence * (3/10)))

/-- `_classify_growth_pattern(velocity)`. -/
def classify_growth_pattern (velocity : ℚ) : String :=
  if 1/10 < velocity then "catch_up_growth"
  else if 0 < velocity then "normal_growth"
  else if -(1/10) < velocity then "growth_faltering"
  else "poor_growth"

/-- `_assess_catch_up_potential(features)`. -/
def assess_catch_up_potential (features : HazFeatures) : String :=
  if features.age_months < 24 then
    if -3 < features.baseline_haz then "high"
    else if -4 < features.baseline_haz then "moderate"
    else "low"
  else if features.age_months < 36 then
    if -(5/2) < features.baseline_haz then "moderate" else "low"
  else "low"

/-- `_generate_haz_recommendations(prediction, features)`. -/
def generate_haz_recommendations (haz : ℚ) (features : HazFeatures) : List String :=
  (if haz < -3 then
      ["Intervensi gizi mendesak diperlukan", "Pertimbangkan program pemberian makan terapeutik"]
    else if haz < -2 then
      ["Diperlukan dukungan gizi intensif", "Pantau pertumbuhan setiap bulan"]
    else [])
  ++ (if features.age_months < 24 then
        ["Fokus pada 1000 hari pertama - periode kritis"] else [])
  ++ (if features.exclusive_bf = 0 ∧ features.age_months < 6 then
        ["Promosikan pemberian ASI eksklusif"] else [])
  ++ (if features.complementary_feeding = 0 ∧ 6 ≤ features.age_months then
        ["Perbaiki praktik pemberian makanan pendamping ASI"] else [])
  ++ (if features.hemoglobin < 11 then
        ["Atasi anemia dengan suplementasi zat besi"] else [])
  ++ (if features.clean_water = 0 ∨ features.sanitation = 0 then
        ["Perbaiki kondisi WASH untuk mencegah infeksi"] else [])
  ++ (if features.on_program = 0 then
        ["Daftarkan pada program dukungan gizi"] else [])

/-- The dictionary returned by `_predict_haz_heuristic`. -/
structure HazHeurResult where
  child_id : String
  current_haz : ℚ
  current_age_months : ℤ
  stunting_status : String
  predicted_haz : ℚ
  predicted_age_months : ℤ
  stunting_risk : String
  method : String
  recommendations : List String
  deriving DecidableEq, Repr

/-- `_predict_haz_heuristic(latest_data, months_ahead)`. -/
def predict_haz_heuristic (latest : Row) (months_ahead : ℤ) : HazHeurResult :=
  let current_haz := latest.HAZ.getD (-1)
  let age_months := latest.usia_bulan.getD 24
  let on_prog := latest.on_program.getD 0
  let predicted_haz :=
    if on_prog ≠ 0 ∧ age_months < 36 then current_haz + (months_ahead : ℚ) * (1/20)
    else current_haz - (months_ahead : ℚ) * (1/50)
  { child_id := latest.child_id.getD "unknown"
    current_haz := current_haz
    current_age_months := pytrunc age_months
    stunting_status := if current_haz < -2 then "stunted" else "normal"
    predicted_haz := pyround predicted_haz 2
    predicted_age_months := pytrunc (age_months + (months_ahead : ℚ))
    stunting_risk := if predicted_haz < -2 then "high" else "low"
    method := "heuristic"
    recommendations := ["Pantau pertumbuhan secara rutin", "Pastikan asupan gizi memadai"] }

/-- The dictionary returned by the trend-based branch of
`predict_haz_progression`. -/
structure HazTrendResult where
  child_id : String
  current_haz : ℚ
  current_age_months : ℤ
  stunting_status : String
  predicted_haz : ℚ
  predicted_age_months : ℤ
  stunting_risk : String
  velocity_per_month : ℚ
  growth_pattern : String
  catch_up_potential : String
  ci_lo : ℚ
  ci_hi : ℚ
  confidence_score : ℚ
  recommendations : List String
  deriving DecidableEq, Repr

/-- The regression points `(months_since_start, HAZ)` of the child frame:
elapsed days divided by 30. -/
def hazPoints (sorted : List Row) : Except String (List (ℚ × ℚ)) :=
  let dmin := ((sorted.filterMap (fun r => r.date)).min?).getD 0
  sorted.mapM (fun r =>
    match r.HAZ with
    | some v => Except.ok ((((r.date.getD 0 - dmin : ℤ) : ℚ) / 30), v)
    | none => Except.error "KeyError: HAZ")

/-- The trend-based body of `predict_haz_progression`. -/
def hazTrendPath (lr : LinRegress) (sorted : List Row) (latest : Row)
    (months_ahead : ℤ) : Except String HazTrendResult := do
  let features ← extract_haz_features sorted
  let hazPts ← hazPoints sorted
  let haz_trend ← lr hazPts
  let latest_haz ← ofCol latest.HAZ "KeyError: HAZ"
  let predicted_haz := latest_haz + haz_trend.slope * (months_ahead : ℚ)
  let prediction := apply_growth_adjustments predicted_haz features months_ahead
  let confidence := calculate_haz_confidence sorted haz_trend
  let cid ← ofCol latest.child_id "KeyError: child_id"
  let usia ← ofCol latest.usia_bulan "KeyError: usia_bulan"
  .ok { child_id := cid
        current_haz := latest_haz
        current_age_months := pytrunc usia
        stunting_status := if latest_haz < -2 then "stunted" else "normal"
        predicted_haz := pyround prediction 2
        predicted_age_months := pytrunc (usia + (months_ahead : ℚ))
        stunting_risk :=
          if prediction < -2 then "high" else if prediction < -1 then "medium" else "low"
        velocity_per_month := pyround haz_trend.slope 3
        growth_pattern := classify_growth_pattern haz_trend.slope
        catch_up_potential := assess_catch_up_potential features
        ci_lo := pyround (prediction - (1/2) * (1 - confidence)) 2
        ci_hi := pyround (prediction + (1/2) * (1 - confidence)) 2
        confidence_score := pyround confidence 3
        recommendations := generate_haz_recommendations prediction features }

/-- Either branch of `predict_haz_progression`. -/
inductive HazResult where
  | trend (t : HazTrendResult)
  | heuristic (h : HazHeurResult)
  deriving DecidableEq, Repr

/-- The `except` handler of `predict_haz_progression`. -/
def hazExceptFallback (child_data : List Row) (months_ahead : ℤ) :
    Except String HazResult :=
  match child_data.getLast? with
  | none => .error "IndexError"
  | some latest => .ok (.heuristic (predict_haz_heuristic latest months_ahead))

/-- The guarded body of `predict_haz_progression` on the sorted frame. -/
def hazFromSorted (lr : LinRegress) (sorted : List Row) (months_ahead : ℤ) :
    Except String HazResult :=
  match sorted.getLast? with
  | none => .error "IndexError"
  | some latest =>
    if sorted.length < 2 then
      .ok (.heuristic (predict_haz_heuristic latest months_ahead))
    else
      match hazTrendPath lr sorted latest months_ahead with
      | .ok t => .ok (.trend t)
      | .error _ => .ok (.heuristic (predict_haz_heuristic latest months_ahead))

/-- `predict_haz_progression(child_data, months_ahead)`, with the same
`try`/`except` discipline as the blood-pressure path. -/
def predict_haz_progression (lr : LinRegress) (child_data : List Row)
    (months_ahead : ℤ) : Except String HazResult :=
  match sortByDateE child_data with
  | .error _ => hazExceptFallback child_data months_ahead
  | .ok sorted => hazFromSorted lr sorted months_ahead

/-! ## Module-level entry points and population risk scoring -/

/-- Either pipeline's dictionary, as returned by `predict_health_outcomes`. -/
inductive PredictOutcome where
  | bp (r : BPResult)
  | haz (r : HazResult)
  deriving DecidableEq, Repr

/-- `predict_health_outcomes(person_data, person_type, months_ahead)`:
dispatches to the adult pipeline on `person_type == 'adult'` and to the
child pipeline on anything else. -/
def predict_health_outcomes (lr : LinRegress) (person_data : List Row)
    (person_type : String) (months_ahead : ℤ) : Except String PredictOutcome :=
  if person_type = "adult" then
    (predict_bp_progression lr person_data months_ahead).map PredictOutcome.bp
  else
    (predict_haz_progression lr person_data months_ahead).map PredictOutcome.haz

/-- What a per-population risk summary would be, were it ever produced.
Neither dispatch target of `calculate_risk_scores` exists, so no code in the
repository constructs one; the placeholder keeps the type inhabited. -/
structure RiskSummary where
  deriving DecidableEq, Repr

/-- The method names defined in class `HealthOutcomePredictor`
(src/ml_predictions.py).  Neither `_calculate_adult_risk_scores` nor
`_calculate_child_risk_scores` is among them. -/
def healthOutcomePredictorMethods : List String :=
  ["__init__", "predict_bp_progression", "predict_haz_progression",
   "calculate_risk_scores", "_extract_bp_features", "_extract_haz_features",
   "_apply_clinical_adjustments", "_apply_growth_adjustments",
   "_calculate_bp_confidence", "_calculate_haz_confidence", "_assess_bp_risk",
   "_assess_catch_up_potential", "_predict_bp_heuristic", "_predict_haz_heuristic",
   "_get_bp_category", "_classify_growth_pattern", "_generate_bp_recommendations",
   "_generate_haz_recommendations"]

/-- Python attribute dispatch `self.<name>(...)` on the predictor: raises
`AttributeError` when the class defines no such method.  The `ok` branch is
dead for the two risk-score targets, since neither is defined. -/
def dispatchRiskMethod (name : String) (_population_data : List Row) :
    Except String RiskSummary :=
  if name ∈ healthOutcomePredictorMethods then
    .ok {}
  else
    .error ("AttributeError: 'HealthOutcomePredictor' object has no attribute '"
      ++ name ++ "'")

/-- Outcome of `calculate_risk_scores`: either a summary, or the
`{'error': str(e)}` dictionary built by the blanket `except` handler. -/
inductive RiskScoresResult where
  | summary (s : RiskSummary)
  | errorDict (msg : String)
  deriving DecidableEq, Repr

/-- `calculate_risk_scores(population_data, data_type)`: dispatches to
`self._calculate_adult_risk_scores` on `data_type == 'adults'` and to
`self._calculate_child_risk_scores` otherwise; the blanket `except` turns
any raised error into `{'error': str(e)}`. -/
def calculate_risk_scores (population_data : List Row) (data_type : String) :
    RiskScoresResult :=
  let target :=
    if data_type = "adults" then "_calculate_adult_risk_scores"
    else "_calculate_child_risk_scores"
  match dispatchRiskMethod target population_data with
  | .ok s => .summary s
  | .error e => .errorDict e

/-- Module-level `calculate_population_risk_scores`: a thin wrapper around
the predictor method. -/
def calculate_population_risk_scores (population_data : List Row)
    (data_type : String) : RiskScoresResult :=
  calculate_risk_scores population_data data_type

/-! ## Dashboard helpers (src/dashboard_server_fixed.py) -/

/-- An entry of the `high_risk_alerts` list built by
`_identify_high_risk_adults`.  The `current_bp` display string is kept as
the raw reading pair. -/
structure RiskEntry where
  person_id : Option String
  risk_score : ℚ
  risk_factors : List String
  urgency : String
  current_sys : ℚ
  current_dia : ℚ
  recommendations : List String
  deriving DecidableEq, Repr

/-- `_get_urgent_recommendations(risk_factors, person_type)`. -/
def get_urgent_recommendations (risk_factors : List String) : List String :=
  (if "Severe hypertension" ∈ risk_factors then
      ["URGENT: Medical evaluation within 24 hours"] else [])
  ++ (if "Severe stunting" ∈ risk_factors then
      ["URGENT: Nutritionist consultation and therapeutic feeding"] else [])
  ++ (if "Poor adherence" ∈ risk_factors then
      ["Immediate adherence intervention required"] else [])
  ++ (if "Severe anemia" ∈ risk_factors then
      ["URGENT: Iron supplementation and medical evaluation"] else [])

/-- The loop body of `_identify_high_risk_adults`: the sequentially
accumulated (risk score, risk factor list) pair for one person. -/
def adultRiskLoop (p : Row) : ℚ × List String :=
  let s0 : ℚ × List String := (0, [])
  let s1 :=
    if 160 ≤ p.sistol.getD 0 then (s0.1 + 2/5, s0.2 ++ ["Severe hypertension"])
    else if 140 ≤ p.sistol.getD 0 then (s0.1 + 1/5, s0.2 ++ ["Hypertension"])
    else s0
  let s2 :=
    if 65 ≤ p.age.getD (p.usia.getD 0) then (s1.1 + 1/5, s1.2 ++ ["Advanced age"])
    else s1
  let s3 :=
    if p.diabetes_koin.getD 0 ≠ 0 then (s2.1 + 3/10, s2.2 ++ ["Diabetes"]) else s2
  let s4 :=
    if p.perokok.getD 0 ≠ 0 then (s3.1 + 1/5, s3.2 ++ ["Smoking"]) else s3
  if p.on_treatment.getD 0 ≠ 0 ∧ p.adherence_current.getD 1 < 4/5 then
    (s4.1 + 1/5, s4.2 ++ ["Poor adherence"])
  else s4

/-- `_identify_high_risk_adults(adults_df, threshold)`: keeps exactly the
rows whose accumulated score reaches the threshold. -/
def identify_high_risk_adults (adults_df : List Row) (threshold : ℚ) :
    List RiskEntry :=
  match adults_df with
  | [] => []
  | p :: rest =>
    let sc := adultRiskLoop p
    if threshold ≤ sc.1 then
      { person_id := p.person_id
        risk_score := pyround sc.1 3
        risk_factors := sc.2
        urgency := if 4/5 ≤ sc.1 then "high" else "medium"
        current_sys := p.sistol.getD 0
        current_dia := p.diastol.getD 0
        recommendations := get_urgent_recommendations sc.2 } ::
      identify_high_risk_adults rest threshold
    else identify_high_risk_adults rest threshold

/-- An early-warning entry of `_detect_early_warning_signs` (the formatted
`description` string is elided; `type`, `severity` and the static
recommendation are kept). -/
structure Warning where
  type : String
  severity : String
  recommendation : String
  deriving DecidableEq, Repr

/-- Mean of a list of rationals (pandas `.mean()`; the callers below only
apply it to non-empty columns). -/
def meanQ (l : List ℚ) : ℚ := l.sum / l.length

/-- `_detect_early_warning_signs(df, population_type)`: compares the mean of
the target measurement over the 90 days up to the newest record against the
all-time mean. -/
def detect_early_warning_signs (df : List Row) (population_type : String) :
    List Warning :=
  if df.isEmpty then []
  else if df.all (fun r => r.date.isSome) then
    let maxd := ((df.filterMap (fun r => r.date)).max?).getD 0
    let recent := df.filter (fun r => maxd - 90 ≤ r.date.getD 0)
    if population_type = "adults" then
      if df.all (fun r => r.sistol.isSome) then
        let recent_avg := meanQ (recent.filterMap (fun r => r.sistol))
        let overall_avg := meanQ (df.filterMap (fun r => r.sistol))
        if overall_avg + 5 < recent_avg then
          [{ type := "increasing_blood_pressure", severity := "medium",
             recommendation := "Tinjau intervensi tingkat populasi dan kepatuhan obat" }]
        else []
      else []
    else
      if df.all (fun r => r.HAZ.isSome) then
        let recent_avg := meanQ (recent.filterMap (fun r => r.HAZ))
        let overall_avg := meanQ (df.filterMap (fun r => r.HAZ))
        if recent_avg < overall_avg - 1/5 then
          [{ type := "declining_growth", severity := "high",
             recommendation := "Selidiki penyebab dan perkuat program gizi segera" }]
        else []
      else []
  else []

/-! ## Helper lemmas and spec-side formulations -/

theorem ebind_error {α β : Type} (e : String) (f : α → Except String β) :
    (Except.error e : Except String α) >>= f = .error e := rfl

theorem ebind_ok {α β : Type} (a : α) (f : α → Except String β) :
    (Except.ok a : Except String α) >>= f = f a := rfl

theorem exists_getLast?_of_ne_nil {l : List Row} (h : l ≠ []) :
    ∃ x, l.getLast? = some x := by
  induction l with
  | nil => exact absurd rfl h
  | cons a as ih =>
    cases as with
    | nil => exact ⟨a, rfl⟩
    | cons b bs =>
      obtain ⟨x, hx⟩ := ih (by simp)
      exact ⟨x, by rw [List.getLast?_cons_cons]; exact hx⟩

/-- The adult per-subject risk score as the specification states it: an
uncapped sum of indicator contributions. -/
def adultRiskScoreSpec (p : Row) : ℚ :=
  (if 160 ≤ p.sistol.getD 0 then 2/5 else if 140 ≤ p.sistol.getD 0 then 1/5 else 0)
  + (if 65 ≤ p.age.getD (p.usia.getD 0) then 1/5 else 0)
  + (if p.diabetes_koin.getD 0 ≠ 0 then 3/10 else 0)
  + (if p.perokok.getD 0 ≠ 0 then 1/5 else 0)
  + (if p.on_treatment.getD 0 ≠ 0 ∧ p.adherence_current.getD 1 < 4/5 then 1/5 else 0)

/-- The risk-factor labels matching the indicator sum, in source order. -/
def adultRiskFactorsSpec (p : Row) : List String :=
  (if 160 ≤ p.sistol.getD 0 then ["Severe hypertension"]
   else if 140 ≤ p.sistol.getD 0 then ["Hypertension"] else [])
  ++ (if 65 ≤ p.age.getD (p.usia.getD 0) then ["Advanced age"] else [])
  ++ (if p.diabetes_koin.getD 0 ≠ 0 then ["Diabetes"] else [])
  ++ (if p.perokok.getD 0 ≠ 0 then ["Smoking"] else [])
  ++ (if p.on_treatment.getD 0 ≠ 0 ∧ p.adherence_current.getD 1 < 4/5 then
        ["Poor adherence"] else [])

theorem adultRiskLoop_eq (p : Row) :
    adultRiskLoop p = (adultRiskScoreSpec p, adultRiskFactorsSpec p) := by
  unfold adultRiskLoop adultRiskScoreSpec adultRiskFactorsSpec
  split_ifs <;> simp_all

/-- The rows of the most recent 90 days, measured back from the newest
record in the frame. -/
def recentRows (df : List Row) : List Row :=
  df.filter (fun r => (((df.filterMap (fun x => x.date)).max?).getD 0) - 90 ≤ r.date.getD 0)

/-- Mean systolic over the most recent 90 days. -/
def recentMeanSys (df : List Row) : ℚ :=
  meanQ ((recentRows df).filterMap (fun r => r.sistol))

/-- All-time mean systolic. -/
def overallMeanSys (df : List Row) : ℚ :=
  meanQ (df.filterMap (fun r => r.sistol))

/-- Mean HAZ over the most recent 90 days. -/
def recentMeanHaz (df : List Row) : ℚ :=
  meanQ ((recentRows df).filterMap (fun r => r.HAZ))

/-- All-time mean HAZ. -/
def overallMeanHaz (df : List Row) : ℚ :=
  meanQ (df.filterMap (fun r => r.HAZ))

/-- The increasing-blood-pressure warning entry. -/
def wIncreasingBP : Warning :=
  { type := "increasing_blood_pressure", severity := "medium",
    recommendation := "Tinjau intervensi tingkat populasi dan kepatuhan obat" }

/-- The declining-growth warning entry. -/
def wDecliningGrowth : Warning :=
  { type := "declining_growth", severity := "high",
    recommendation := "Selidiki penyebab dan perkuat program gizi segera" }

/-- A regression oracle that always fails, standing for an arbitrary
internal arithmetic or statistical error in the trend fit. -/
def lrFail (msg : String) : LinRegress := fun _ => .error msg

/-- A trivial regression oracle used to evaluate concrete scenarios. -/
def lrZero : LinRegress := fun _ => .ok { slope := 0, stderr := 0, rvalue := 0 }

/-- A single adult-style observation (age and adherence attributes absent)
used in concrete scenarios. -/
def rowAdult1 : Row :=
  { person_id := some "P001", date := some 0, sistol := some 150, diastol := some 95 }

/-! ## Claims -/

/-- Claim C2 (confirmed): for every population frame and data_type,
`calculate_risk_scores` — and hence the exported
`calculate_population_risk_scores` — never returns a population risk
summary: the dispatch targets `_calculate_adult_risk_scores` and
`_calculate_child_risk_scores` are not defined anywhere on the class, so
the attribute lookup raises and the blanket handler returns the
`{'error': ...}` dictionary. -/
theorem c2_risk_scores_always_error_dict :
    ∀ (pop : List Row) (dt : String),
      (∃ msg, calculate_risk_scores pop dt = .errorDict msg)
      ∧ (∀ s, calculate_risk_scores pop dt ≠ .summary s)
      ∧ calculate_population_risk_scores pop dt = calculate_risk_scores pop dt := by
  intro pop dt
  have key : ∃ msg, calculate_risk_scores pop dt = .errorDict msg := by
    by_cases h : dt = "adults"
    · subst h
      exact ⟨"AttributeError: 'HealthOutcomePredictor' object has no attribute '_calculate_adult_risk_scores'", rfl⟩
    · refine ⟨"AttributeError: 'HealthOutcomePredictor' object has no attribute '_calculate_child_risk_scores'", ?_⟩
      simp only [calculate_risk_scores, if_neg h]
      rfl
  obtain ⟨msg, hmsg⟩ := key
  refine ⟨⟨msg, hmsg⟩, ?_, rfl⟩
  intro s hc
  rw [hmsg] at hc
  exact RiskScoresResult.noConfusion hc

/-- Claim C1 (corrected): an unknown subject kind is not surfaced as an
invalid-input error.  `predict_health_outcomes` silently dispatches any
`person_type` other than 'adult' to the child pipeline, and
`calculate_risk_scores` dispatches any `data_type` other than 'adults' to
the child scorer, indistinguishably from the 'children' case. -/
theorem c1_unknown_kind_silently_defaults :
    (∀ (lr : LinRegress) (data : List Row) (pt : String) (m : ℤ), pt ≠ "adult" →
        predict_health_outcomes lr data pt m
          = (predict_haz_progression lr data m).map PredictOutcome.haz)
    ∧ (∀ (pop : List Row) (dt : String), dt ≠ "adults" →
        calculate_risk_scores pop dt = calculate_risk_scores pop "children") := by
  constructor
  · intro lr data pt m hpt
    simp only [predict_health_outcomes, if_neg hpt]
  · intro pop dt hdt
    simp only [calculate_risk_scores, if_neg hdt,
      if_neg (show ¬("children" : String) = "adults" by decide)]

/-- Witness for C1 at the concrete unknown kind 'dog'. -/
theorem c1_unknown_kind_silently_defaults_witness :
    predict_health_outcomes lrZero [rowAdult1] "dog" 6
      = (predict_haz_progression lrZero [rowAdult1] 6).map PredictOutcome.haz
    ∧ calculate_risk_scores [] "dog" = calculate_risk_scores [] "children" :=
  ⟨c1_unknown_kind_silently_defaults.1 lrZero [rowAdult1] "dog" 6 (by decide),
   c1_unknown_kind_silently_defaults.2 [] "dog" (by decide)⟩

/-- Counterexample to C1 as stated: with person_type 'dog' the predictor
returns an ordinary child-pipeline heuristic prediction, not an error, and
the risk scorer returns exactly what it returns for 'children'. -/
theorem c1_counterexample :
    (predict_health_outcomes lrZero [rowAdult1] "dog" 6).toOption
      = some (.haz (.heuristic (predict_haz_heuristic rowAdult1 6)))
    ∧ calculate_risk_scores [] "dog" = calculate_risk_scores [] "children" :=
  ⟨rfl, rfl⟩

/-- Claim C3 (corrected): feature extraction substitutes missing-value
defaults rather than failing, and a missing age defaults to 50 — but a
missing adherence attribute defaults to 0, not to the full-adherence 1.0
the claim states. -/
theorem c3_extraction_defaults :
    ∀ (data : List Row) (latest : Row) (f : BPFeatures),
      data.getLast? = some latest →
      extract_bp_features data = .ok f →
      (latest.adherence_current = none → f.adherence = 0)
      ∧ (latest.age = none → latest.usia = none → f.age = 50) := by
  intro data latest f hlast hf
  cases data with
  | nil => simp at hlast
  | cons a as =>
    unfold extract_bp_features at hf
    rw [hlast, List.head?_cons] at hf
    simp only [ofCol, ebind_ok] at hf
    cases hs : a.sistol with
    | none =>
      rw [hs] at hf
      simp [ebind_error] at hf
    | some bs =>
      cases hd : a.diastol with
      | none =>
        rw [hs, hd] at hf
        simp [ebind_error, ebind_ok] at hf
      | some bd =>
        rw [hs, hd] at hf
        simp only [ebind_ok, Except.ok.injEq] at hf
        subst hf
        constructor
        · intro hnone
          simp [hnone]
        · intro hage husia
          simp [hage, husia]

/-- The feature record extracted from the single observation `rowAdult1`. -/
def fAdult1 : BPFeatures :=
  { age := 50, on_treatment := 0, treatment_months := 0, adherence := 0,
    diabetes := 0, smoking := 0, bmi := 25, baseline_systolic := 150,
    baseline_diastolic := 95, data_points := 1 }

/-- Witness for C3: the defaults on a concrete observation lacking age and
adherence. -/
theorem c3_extraction_defaults_witness :
    extract_bp_features [rowAdult1] = .ok fAdult1
    ∧ fAdult1.adherence = 0 ∧ fAdult1.age = 50 :=
  ⟨rfl,
   (c3_extraction_defaults [rowAdult1] rowAdult1 fAdult1 rfl rfl).1 rfl,
   (c3_extraction_defaults [rowAdult1] rowAdult1 fAdult1 rfl rfl).2 rfl rfl⟩

/-- Counterexample to C3 as stated: with the adherence attribute absent the
extracted adherence is 0, not the claimed full-adherence 1.0. -/
theorem c3_counterexample :
    (extract_bp_features [rowAdult1]).toOption.map BPFeatures.adherence = some 0
    ∧ (extract_bp_features [rowAdult1]).toOption.map BPFeatures.adherence ≠ some 1 := by
  exact ⟨rfl, by decide⟩

/-- Claim C4 (corrected): the clamping invariant holds for the trend-based
path — the clinical and growth adjustment steps clamp predicted systolic to
[90, 250], diastolic to [60, 130] and HAZ to [-5, 3] — but the heuristic
fallback path performs no clamping (see the counterexample). -/
theorem c4_adjustment_clamping :
    (∀ (sys dia : ℚ) (f : BPFeatures) (m : ℤ),
        90 ≤ (apply_clinical_adjustments sys dia f m).1
        ∧ (apply_clinical_adjustments sys dia f m).1 ≤ 250
        ∧ 60 ≤ (apply_clinical_adjustments sys dia f m).2
        ∧ (apply_clinical_adjustments sys dia f m).2 ≤ 130)
    ∧ (∀ (haz : ℚ) (hf : HazFeatures) (m : ℤ),
        -5 ≤ apply_growth_adjustments haz hf m
        ∧ apply_growth_adjustments haz hf m ≤ 3) := by
  constructor
  · intro sys dia f m
    unfold apply_clinical_adjustments
    exact ⟨le_max_left _ _, max_le (by norm_num) (min_le_left _ _),
           le_max_left _ _, max_le (by norm_num) (min_le_left _ _)⟩
  · intro haz hf m
    unfold apply_growth_adjustments
    exact ⟨le_max_left _ _, max_le (by norm_num) (min_le_left _ _)⟩

/-- A single observation whose systolic reading is far above the
physiological band. -/
def rowSys300 : Row :=
  { person_id := some "P9", date := some 0, sistol := some 300, diastol := some 90 }

/-- Counterexample to C4 as stated: a one-observation history takes the
heuristic path and returns predicted systolic 303, outside [90, 250]. -/
theorem c4_counterexample :
    (predict_bp_progression lrZero [rowSys300] 6).toOption
      = some (.heuristic (predict_bp_heuristic rowSys300 6))
    ∧ (predict_bp_heuristic rowSys300 6).predicted_sys = 303
    ∧ ¬((predict_bp_heuristic rowSys300 6).predicted_sys ≤ 250) := by
  have hps : (predict_bp_heuristic rowSys300 6).predicted_sys = 303 := by
    norm_num [predict_bp_heuristic, rowSys300, pyround, rne]
  refine ⟨rfl, hps, ?_⟩
  rw [hps]
  norm_num

theorem bpTrendPath_lrFail (msg : String) (sorted : List Row) (latest : Row)
    (m : ℤ) : ∃ e, bpTrendPath (lrFail msg) sorted latest m = .error e := by
  cases hf : extract_bp_features sorted with
  | error e =>
    exact ⟨e, by simp only [bpTrendPath, hf, ebind_error]⟩
  | ok f =>
    cases h1 : bpPoints sorted (fun r => r.sistol) "KeyError: sistol" with
    | error e =>
      exact ⟨e, by simp only [bpTrendPath, hf, h1, ebind_ok, ebind_error]⟩
    | ok sysPts =>
      cases h2 : bpPoints sorted (fun r => r.diastol) "KeyError: diastol" with
      | error e =>
        exact ⟨e, by simp only [bpTrendPath, hf, h1, h2, ebind_ok, ebind_error]⟩
      | ok diaPts =>
        exact ⟨msg, by simp only [bpTrendPath, hf, h1, h2, ebind_ok, lrFail, ebind_error]⟩

theorem hazTrendPath_lrFail (msg : String) (sorted : List Row) (latest : Row)
    (m : ℤ) : ∃ e, hazTrendPath (lrFail msg) sorted latest m = .error e := by
  cases hf : extract_haz_features sorted with
  | error e =>
    exact ⟨e, by simp only [hazTrendPath, hf, ebind_error]⟩
  | ok f =>
    cases h1 : hazPoints sorted with
    | error e =>
      exact ⟨e, by simp only [hazTrendPath, hf, h1, ebind_ok, ebind_error]⟩
    | ok pts =>
      exact ⟨msg, by simp only [hazTrendPath, hf, h1, ebind_ok, lrFail, ebind_error]⟩

theorem sortByDateE_ok_ne_nil {data sorted : List Row}
    (h : sortByDateE data = .ok sorted) (hne : data ≠ []) : sorted ≠ [] := by
  unfold sortByDateE at h
  split at h
  · cases h
    exact sortByDate_ne_nil hne
  · cases h

theorem predict_bp_total (lr : LinRegress) (data : List Row) (m : ℤ)
    (hne : data ≠ []) : ∃ r, predict_bp_progression lr data m = .ok r := by
  unfold predict_bp_progression
  cases hs : sortByDateE data with
  | error e =>
    show ∃ r, bpExceptFallback data m = .ok r
    unfold bpExceptFallback
    obtain ⟨x, hx⟩ := exists_getLast?_of_ne_nil hne
    rw [hx]
    exact ⟨_, rfl⟩
  | ok sorted =>
    show ∃ r, bpFromSorted lr sorted m = .ok r
    unfold bpFromSorted
    obtain ⟨x, hx⟩ := exists_getLast?_of_ne_nil (sortByDateE_ok_ne_nil hs hne)
    simp only [hx]
    by_cases hlen : sorted.length < 2
    · rw [if_pos hlen]
      exact ⟨_, rfl⟩
    · rw [if_neg hlen]
      cases htp : bpTrendPath lr sorted x m with
      | ok t => simp only [htp]; exact ⟨_, rfl⟩
      | error e => simp only [htp]; exact ⟨_, rfl⟩

theorem predict_haz_total (lr : LinRegress) (data : List Row) (m : ℤ)
    (hne : data ≠ []) : ∃ r, predict_haz_progression lr data m = .ok r := by
  unfold predict_haz_progression
  cases hs : sortByDateE data with
  | error e =>
    show ∃ r, hazExceptFallback data m = .ok r
    unfold hazExceptFallback
    obtain ⟨x, hx⟩ := exists_getLast?_of_ne_nil hne
    rw [hx]
    exact ⟨_, rfl⟩
  | ok sorted =>
    show ∃ r, hazFromSorted lr sorted m = .ok r
    unfold hazFromSorted
    obtain ⟨x, hx⟩ := exists_getLast?_of_ne_nil (sortByDateE_ok_ne_nil hs hne)
    simp only [hx]
    by_cases hlen : sorted.length < 2
    · rw [if_pos hlen]
      exact ⟨_, rfl⟩
    · rw [if_neg hlen]
      cases htp : hazTrendPath lr sorted x m with
      | ok t => simp only [htp]; exact ⟨_, rfl⟩
      | error e => simp only [htp]; exact ⟨_, rfl⟩

theorem predict_bp_lrFail_heuristic (msg : String) (data : List Row) (m : ℤ)
    (hne : data ≠ []) :
    ∃ h, predict_bp_progression (lrFail msg) data m = .ok (.heuristic h) := by
  unfold predict_bp_progression
  cases hs : sortByDateE data with
  | error e =>
    show ∃ h, bpExceptFallback data m = .ok (.heuristic h)
    unfold bpExceptFallback
    obtain ⟨x, hx⟩ := exists_getLast?_of_ne_nil hne
    rw [hx]
    exact ⟨_, rfl⟩
  | ok sorted =>
    show ∃ h, bpFromSorted (lrFail msg) sorted m = .ok (.heuristic h)
    unfold bpFromSorted
    obtain ⟨x, hx⟩ := exists_getLast?_of_ne_nil (sortByDateE_ok_ne_nil hs hne)
    simp only [hx]
    by_cases hlen : sorted.length < 2
    · rw [if_pos hlen]
      exact ⟨_, rfl⟩
    · rw [if_neg hlen]
      obtain ⟨e, he⟩ := bpTrendPath_lrFail msg sorted x m
      simp only [he]
      exact ⟨_, rfl⟩

theorem predict_haz_lrFail_heuristic (msg : String) (data : List Row) (m : ℤ)
    (hne : data ≠ []) :
    ∃ h, predict_haz_progression (lrFail msg) data m = .ok (.heuristic h) := by
  unfold predict_haz_progression
  cases hs : sortByDateE data with
  | error e =>
    show ∃ h, hazExceptFallback data m = .ok (.heuristic h)
    unfold hazExceptFallback
    obtain ⟨x, hx⟩ := exists_getLast?_of_ne_nil hne
    rw [hx]
    exact ⟨_, rfl⟩
  | ok sorted =>
    show ∃ h, hazFromSorted (lrFail msg) sorted m = .ok (.heuristic h)
    unfold hazFromSorted
    obtain ⟨x, hx⟩ := exists_getLast?_of_ne_nil (sortByDateE_ok_ne_nil hs hne)
    simp only [hx]
    by_cases hlen : sorted.length < 2
    · rw [if_pos hlen]
      exact ⟨_, rfl⟩
    · rw [if_neg hlen]
      obtain ⟨e, he⟩ := hazTrendPath_lrFail msg sorted x m
      simp only [he]
      exact ⟨_, rfl⟩

/-- Claim C5 (confirmed): on every non-empty history neither predictor ever
propagates an error to the caller — for every regression oracle the call
returns a result — and whenever the trend-based body fails (modelled by an
always-failing regression), the returned result is the heuristic fallback
prediction. -/
theorem c5_never_raises_falls_back :
    (∀ (lr : LinRegress) (data : List Row) (m : ℤ), data ≠ [] →
        ∃ r, predict_bp_progression lr data m = .ok r)
    ∧ (∀ (lr : LinRegress) (data : List Row) (m : ℤ), data ≠ [] →
        ∃ r, predict_haz_progression lr data m = .ok r)
    ∧ (∀ (msg : String) (data : List Row) (m : ℤ), data ≠ [] →
        ∃ h, predict_bp_progression (lrFail msg) data m = .ok (.heuristic h))
    ∧ (∀ (msg : String) (data : List Row) (m : ℤ), data ≠ [] →
        ∃ h, predict_haz_progression (lrFail msg) data m = .ok (.heuristic h)) :=
  ⟨fun lr data m hne => predict_bp_total lr data m hne,
   fun lr data m hne => predict_haz_total lr data m hne,
   fun msg data m hne => predict_bp_lrFail_heuristic msg data m hne,
   fun msg data m hne => predict_haz_lrFail_heuristic msg data m hne⟩

/-- Witness for C5 on a concrete one-observation history, with both a
working and an always-failing regression oracle. -/
theorem c5_never_raises_falls_back_witness :
    (∃ r, predict_bp_progression lrZero [rowAdult1] 6 = .ok r)
    ∧ (∃ h, predict_haz_progression (lrFail "zero variance") [rowAdult1] 6
          = .ok (.heuristic h)) :=
  ⟨c5_never_raises_falls_back.1 lrZero [rowAdult1] 6 (by decide),
   c5_never_raises_falls_back.2.2.2 "zero variance" [rowAdult1] 6 (by decide)⟩

/-- Claim C6 (confirmed): for every feature mapping with a non-negative
adherence fraction and every months horizon, the adult clinical adjustment
computes exactly the specified linear formula — age effect 0.2*(age-50)*months,
treatment effect -15*adherence*min(1, treatment_months/6) when on treatment
else 0, diabetes effect 3*months, smoking effect 2*months, with the diastolic
weights 0.6 / 0.7 / 0.6 — before clamping to the physiological bounds. -/
theorem c6_clinical_adjustment_formula :
    ∀ (systolic diastolic : ℚ) (f : BPFeatures) (months : ℤ), 0 ≤ f.adherence →
      apply_clinical_adjustments systolic diastolic f months
        = (max 90 (min 250 (systolic + (1/5) * (f.age - 50) * months
              + (if f.on_treatment ≠ 0 then
                   -15 * f.adherence * min 1 (f.treatment_months / 6) else 0)
              + 3 * f.diabetes * months + 2 * f.smoking * months)),
           max 60 (min 130 (diastolic + (3/5) * ((1/5) * (f.age - 50) * months)
              + (7/10) * (if f.on_treatment ≠ 0 then
                   -15 * f.adherence * min 1 (f.treatment_months / 6) else 0)
              + (3/5) * (3 * f.diabetes * months)))) := by
  intro systolic diastolic f months hadh
  by_cases ht : f.on_treatment ≠ 0
  · by_cases ha : 0 < f.adherence
    · simp only [apply_clinical_adjustments, if_pos (And.intro ht ha), if_pos ht,
        Prod.mk.injEq]
      constructor
      · apply congrArg (fun x => max 90 (min 250 x))
        ring
      · apply congrArg (fun x => max 60 (min 130 x))
        ring
    · have h0 : f.adherence = 0 := le_antisymm (not_lt.mp ha) hadh
      have hcond : ¬(f.on_treatment ≠ 0 ∧ 0 < f.adherence) := fun hc => ha hc.2
      simp only [apply_clinical_adjustments, if_neg hcond, if_pos ht,
        Prod.mk.injEq]
      rw [h0]
      constructor
      · apply congrArg (fun x => max 90 (min 250 x))
        ring
      · apply congrArg (fun x => max 60 (min 130 x))
        ring
  · have hcond : ¬(f.on_treatment ≠ 0 ∧ 0 < f.adherence) := fun hc => ht hc.1
    simp only [apply_clinical_adjustments, if_neg hcond, if_neg ht, Prod.mk.injEq]
    constructor
    · apply congrArg (fun x => max 90 (min 250 x))
      ring
    · apply congrArg (fun x => max 60 (min 130 x))
      ring

/-- A fully specified feature mapping used as the C6 witness scenario. -/
def fTreated : BPFeatures :=
  { age := 60, on_treatment := 1, treatment_months := 3, adherence := 1/2,
    diabetes := 1, smoking := 0, bmi := 25, baseline_systolic := 140,
    baseline_diastolic := 90, data_points := 2 }

/-- Witness for C6 at a concrete on-treatment feature mapping. -/
theorem c6_clinical_adjustment_formula_witness :
    apply_clinical_adjustments 150 95 fTreated 6
      = (max 90 (min 250 (150 + (1/5) * (fTreated.age - 50) * 6
            + (if fTreated.on_treatment ≠ 0 then
                 -15 * fTreated.adherence * min 1 (fTreated.treatment_months / 6) else 0)
            + 3 * fTreated.diabetes * 6 + 2 * fTreated.smoking * 6)),
         max 60 (min 130 (95 + (3/5) * ((1/5) * (fTreated.age - 50) * 6)
            + (7/10) * (if fTreated.on_treatment ≠ 0 then
                 -15 * fTreated.adherence * min 1 (fTreated.treatment_months / 6) else 0)
            + (3/5) * (3 * fTreated.diabetes * 6)))) :=
  c6_clinical_adjustment_formula 150 95 fTreated 6 (by norm_num [fTreated])

/-- Claim C7 (confirmed): the adult heuristic fallback is exactly the
stated rule — on treatment: systolic-2 / diastolic-1 regardless of horizon;
otherwise +0.5 and +0.3 per month — with the fixed ±15/±10 confidence
interval around the (pre-rounding) prediction and the 'heuristic' method
tag.  The displayed prediction is the value rounded to one decimal. -/
theorem c7_bp_heuristic_formula :
    ∀ (latest : Row) (m : ℤ),
      predict_bp_heuristic latest m =
        { person_id := latest.person_id.getD "unknown"
          current_sys := latest.sistol.getD 140
          current_dia := latest.diastol.getD 90
          predicted_sys := pyround (if latest.on_treatment.getD 0 ≠ 0
              then latest.sistol.getD 140 - 2
              else latest.sistol.getD 140 + (m : ℚ) * (1/2)) 1
          predicted_dia := pyround (if latest.on_treatment.getD 0 ≠ 0
              then latest.diastol.getD 90 - 1
              else latest.diastol.getD 90 + (m : ℚ) * (3/10)) 1
          ci_sys_lo := (if latest.on_treatment.getD 0 ≠ 0
              then latest.sistol.getD 140 - 2
              else latest.sistol.getD 140 + (m : ℚ) * (1/2)) - 15
          ci_sys_hi := (if latest.on_treatment.getD 0 ≠ 0
              then latest.sistol.getD 140 - 2
              else latest.sistol.getD 140 + (m : ℚ) * (1/2)) + 15
          ci_dia_lo := (if latest.on_treatment.getD 0 ≠ 0
              then latest.diastol.getD 90 - 1
              else latest.diastol.getD 90 + (m : ℚ) * (3/10)) - 10
          ci_dia_hi := (if latest.on_treatment.getD 0 ≠ 0
              then latest.diastol.getD 90 - 1
              else latest.diastol.getD 90 + (m : ℚ) * (3/10)) + 10
          method := "heuristic"
          recommendations := ["Disarankan pemantauan rutin",
            "Pertimbangkan perubahan gaya hidup"] } :=
  fun _ _ => rfl

/-- Claim C8 (confirmed): an adult appears in the high-risk list exactly
when the uncapped indicator sum — +0.4 severe hypertension (systolic≥160)
else +0.2 hypertension (≥140), +0.2 age≥65, +0.3 diabetes, +0.2 smoking,
+0.2 on treatment with adherence<0.8 — reaches the caller threshold, and
the entry carries urgency 'high' exactly when the sum reaches 0.8, else
'medium'. -/
theorem c8_high_risk_adults :
    ∀ (adults_df : List Row) (threshold : ℚ),
      identify_high_risk_adults adults_df threshold
        = (adults_df.filter (fun p => decide (threshold ≤ adultRiskScoreSpec p))).map
            (fun p =>
              { person_id := p.person_id
                risk_score := pyround (adultRiskScoreSpec p) 3
                risk_factors := adultRiskFactorsSpec p
                urgency := if 4/5 ≤ adultRiskScoreSpec p then "high" else "medium"
                current_sys := p.sistol.getD 0
                current_dia := p.diastol.getD 0
                recommendations :=
                  get_urgent_recommendations (adultRiskFactorsSpec p) }) := by
  intro adults_df threshold
  induction adults_df with
  | nil => rfl
  | cons p rest ih =>
    unfold identify_high_risk_adults
    rw [adultRiskLoop_eq]
    by_cases h : threshold ≤ adultRiskScoreSpec p
    · simp only [h, if_true, List.filter_cons, decide_eq_true_eq, if_pos h,
        List.map_cons, ih]
    · simp only [h, if_false, List.filter_cons, decide_eq_true_eq, if_neg h,
        List.map_cons, ih]

/-- Claim C9 (confirmed): the adult trend confidence equals the stated
weighted blend clamped to [0.1, 1], so the reported (3-decimal-rounded)
confidence also lies in [0.1, 1]; and the trend-branch dictionary carries
confidence intervals predicted ± 10*(1-confidence) systolic and ±
7*(1-confidence) diastolic (rounded to one decimal for display). -/
theorem c9_bp_confidence_and_intervals :
    (∀ (data : List Row) (st dt : LinTrend),
        calculate_bp_confidence data st dt
          = min 1 (max (1/10)
              ((3/10) * min 1 ((data.length : ℚ) / 10)
                + (3/10) * (1 / (1 + |st.stderr| + |dt.stderr|))
                + (2/5) * ((st.rvalue ^ 2 + dt.rvalue ^ 2) / 2)))
        ∧ 1/10 ≤ calculate_bp_confidence data st dt
        ∧ calculate_bp_confidence data st dt ≤ 1
        ∧ 1/10 ≤ pyround (calculate_bp_confidence data st dt) 3
        ∧ pyround (calculate_bp_confidence data st dt) 3 ≤ 1)
    ∧ (∀ (pid : String) (cs cd ps pd : ℚ) (st dt : LinTrend) (conf : ℚ)
          (f : BPFeatures),
        (mkBPTrendResult pid cs cd ps pd st dt conf f).trend_confidence
            = pyround conf 3
        ∧ (mkBPTrendResult pid cs cd ps pd st dt conf f).ci_sys_lo
            = pyround (ps - 10 * (1 - conf)) 1
        ∧ (mkBPTrendResult pid cs cd ps pd st dt conf f).ci_sys_hi
            = pyround (ps + 10 * (1 - conf)) 1
        ∧ (mkBPTrendResult pid cs cd ps pd st dt conf f).ci_dia_lo
            = pyround (pd - 7 * (1 - conf)) 1
        ∧ (mkBPTrendResult pid cs cd ps pd st dt conf f).ci_dia_hi
            = pyround (pd + 7 * (1 - conf)) 1) := by
  constructor
  · intro data st dt
    have hval : calculate_bp_confidence data st dt
        = min 1 (max (1/10)
            ((3/10) * min 1 ((data.length : ℚ) / 10)
              + (3/10) * (1 / (1 + |st.stderr| + |dt.stderr|))
              + (2/5) * ((st.rvalue ^ 2 + dt.rvalue ^ 2) / 2))) := by
      simp only [calculate_bp_confidence]
      apply congrArg (fun x => min 1 (max (1/10) x))
      ring
    have hlo : 1/10 ≤ calculate_bp_confidence data st dt := by
      rw [hval]
      exact le_min (by norm_num) (le_max_left _ _)
    have hhi : calculate_bp_confidence data st dt ≤ 1 := by
      rw [hval]
      exact min_le_left _ _
    have hrlo : 1/10 ≤ pyround (calculate_bp_confidence data st dt) 3 := by
      have hb := @le_pyround 100 (calculate_bp_confidence data st dt) 3
        (by push_cast; linarith)
      have he : ((100 : ℤ) : ℚ) / 10 ^ 3 = 1/10 := by norm_num
      linarith [hb, he.symm.le]
    have hrhi : pyround (calculate_bp_confidence data st dt) 3 ≤ 1 := by
      have hb := @pyround_le 1000 (calculate_bp_confidence data st dt) 3
        (by push_cast; linarith)
      have he : ((1000 : ℤ) : ℚ) / 10 ^ 3 = 1 := by norm_num
      linarith [hb, he.le]
    exact ⟨hval, hlo, hhi, hrlo, hrhi⟩
  · intro pid cs cd ps pd st dt conf f
    exact ⟨rfl, rfl, rfl, rfl, rfl⟩

/-- Claim C10 (confirmed): on a non-empty frame with date and measurement
columns, early-warning detection emits the increasing-blood-pressure
warning exactly when the mean systolic of the most recent 90 days exceeds
the all-time mean by more than 5 (adults), the declining-growth warning
exactly when the recent mean HAZ is below the all-time mean by more than
0.2 (children), and an empty frame yields no warnings. -/
theorem c10_early_warning :
    (∀ pt, detect_early_warning_signs [] pt = [])
    ∧ (∀ df : List Row, df ≠ [] →
        (∀ r ∈ df, r.date.isSome ∧ r.sistol.isSome) →
        detect_early_warning_signs df "adults"
          = (if overallMeanSys df + 5 < recentMeanSys df then [wIncreasingBP]
             else []))
    ∧ (∀ df : List Row, df ≠ [] →
        (∀ r ∈ df, r.date.isSome ∧ r.HAZ.isSome) →
        detect_early_warning_signs df "children"
          = (if recentMeanHaz df < overallMeanHaz df - 1/5 then [wDecliningGrowth]
             else [])) := by
  refine ⟨fun pt => rfl, ?_, ?_⟩
  · intro df hne hcols
    have hempty : df.isEmpty = false := by
      cases df with
      | nil => exact absurd rfl hne
      | cons a l => rfl
    have hdates : df.all (fun r => r.date.isSome) = true :=
      List.all_eq_true.mpr (fun r hr => (hcols r hr).1)
    have hsys : df.all (fun r => r.sistol.isSome) = true :=
      List.all_eq_true.mpr (fun r hr => (hcols r hr).2)
    simp only [detect_early_warning_signs, hempty, Bool.false_eq_true, if_false,
      hdates, if_true, hsys, recentMeanSys, overallMeanSys, recentRows,
      wIncreasingBP]
  · intro df hne hcols
    have hempty : df.isEmpty = false := by
      cases df with
      | nil => exact absurd rfl hne
      | cons a l => rfl
    have hdates : df.all (fun r => r.date.isSome) = true :=
      List.all_eq_true.mpr (fun r hr => (hcols r hr).1)
    have hhaz : df.all (fun r => r.HAZ.isSome) = true :=
      List.all_eq_true.mpr (fun r hr => (hcols r hr).2)
    simp only [detect_early_warning_signs, hempty, Bool.false_eq_true, if_false,
      hdates, if_true, hhaz, recentMeanHaz, overallMeanHaz, recentRows,
      wDecliningGrowth]
    rw [if_neg (by decide : ¬("children" : String) = "adults")]

/-- Two-row frame whose recent (last 90 days) mean systolic far exceeds the
all-time mean. -/
def rowEarly : Row :=
  { person_id := some "PA", date := some 0, sistol := some 100 }

def rowLate : Row :=
  { person_id := some "PB", date := some 100, sistol := some 200 }

def dfRising : List Row := [rowEarly, rowLate]

/-- Witness for C10 on the concrete rising-pressure frame. -/
theorem c10_early_warning_witness :
    detect_early_warning_signs dfRising "adults"
      = (if overallMeanSys dfRising + 5 < recentMeanSys dfRising then [wIncreasingBP]
         else []) :=
  c10_early_warning.2.1 dfRising (by decide) (by decide)

/-- Witness for C2 at the concrete empty frame and data_type 'adults'. -/
theorem c2_risk_scores_always_error_dict_witness :
    (∃ msg, calculate_risk_scores [] "adults" = .errorDict msg)
    ∧ (∀ s, calculate_risk_scores [] "adults" ≠ .summary s)
    ∧ calculate_population_risk_scores [] "adults"
        = calculate_risk_scores [] "adults" :=
  c2_risk_scores_always_error_dict [] "adults"

/-- A child feature mapping used as a concrete clamping scenario. -/
def hzChild : HazFeatures :=
  { age_months := 12, on_program := 0, program_months := 0, hemoglobin := 12,
    exclusive_bf := 0, complementary_feeding := 0, clean_water := 0,
    sanitation := 0, baseline_haz := -2, data_points := 1 }

/-- Witness for C4 at concrete out-of-band raw predictions. -/
theorem c4_adjustment_clamping_witness :
    (90 ≤ (apply_clinical_adjustments 300 90 fTreated 6).1
      ∧ (apply_clinical_adjustments 300 90 fTreated 6).1 ≤ 250
      ∧ 60 ≤ (apply_clinical_adjustments 300 90 fTreated 6).2
      ∧ (apply_clinical_adjustments 300 90 fTreated 6).2 ≤ 130)
    ∧ (-5 ≤ apply_growth_adjustments (-6) hzChild 6
      ∧ apply_growth_adjustments (-6) hzChild 6 ≤ 3) :=
  ⟨c4_adjustment_clamping.1 300 90 fTreated 6,
   c4_adjustment_clamping.2 (-6) hzChild 6⟩

/-- Witness for C7 at the concrete untreated observation `rowAdult1`. -/
theorem c7_bp_heuristic_formula_witness :
    predict_bp_heuristic rowAdult1 6 =
      { person_id := rowAdult1.person_id.getD "unknown"
        current_sys := rowAdult1.sistol.getD 140
        current_dia := rowAdult1.diastol.getD 90
        predicted_sys := pyround (if rowAdult1.on_treatment.getD 0 ≠ 0
            then rowAdult1.sistol.getD 140 - 2
            else rowAdult1.sistol.getD 140 + ((6 : ℤ) : ℚ) * (1/2)) 1
        predicted_dia := pyround (if rowAdult1.on_treatment.getD 0 ≠ 0
            then rowAdult1.diastol.getD 90 - 1
            else rowAdult1.diastol.getD 90 + ((6 : ℤ) : ℚ) * (3/10)) 1
        ci_sys_lo := (if rowAdult1.on_treatment.getD 0 ≠ 0
            then rowAdult1.sistol.getD 140 - 2
            else rowAdult1.sistol.getD 140 + ((6 : ℤ) : ℚ) * (1/2)) - 15
        ci_sys_hi := (if rowAdult1.on_treatment.getD 0 ≠ 0
            then rowAdult1.sistol.getD 140 - 2
            else rowAdult1.sistol.getD 140 + ((6 : ℤ) : ℚ) * (1/2)) + 15
        ci_dia_lo := (if rowAdult1.on_treatment.getD 0 ≠ 0
            then rowAdult1.diastol.getD 90 - 1
            else rowAdult1.diastol.getD 90 + ((6 : ℤ) : ℚ) * (3/10)) - 10
        ci_dia_hi := (if rowAdult1.on_treatment.getD 0 ≠ 0
            then rowAdult1.diastol.getD 90 - 1
            else rowAdult1.diastol.getD 90 + ((6 : ℤ) : ℚ) * (3/10)) + 10
        method := "heuristic"
        recommendations := ["Disarankan pemantauan rutin",
          "Pertimbangkan perubahan gaya hidup"] } :=
  c7_bp_heuristic_formula rowAdult1 6

/-- Witness for C8 on a concrete one-person frame and threshold 0.7. -/
theorem c8_high_risk_adults_witness :
    identify_high_risk_adults [rowAdult1] (7/10)
      = ([rowAdult1].filter (fun p => decide ((7/10) ≤ adultRiskScoreSpec p))).map
          (fun p =>
            { person_id := p.person_id
              risk_score := pyround (adultRiskScoreSpec p) 3
              risk_factors := adultRiskFactorsSpec p
              urgency := if 4/5 ≤ adultRiskScoreSpec p then "high" else "medium"
              current_sys := p.sistol.getD 0
              current_dia := p.diastol.getD 0
              recommendations :=
                get_urgent_recommendations (adultRiskFactorsSpec p) }) :=
  c8_high_risk_adults [rowAdult1] (7/10)

/-- A concrete degenerate trend record. -/
def ltZero : LinTrend := { slope := 0, stderr := 0, rvalue := 0 }

/-- Witness for C9 at concrete data and trend statistics. -/
theorem c9_bp_confidence_and_intervals_witness :
    (calculate_bp_confidence [] ltZero ltZero
        = min 1 (max (1/10)
            ((3/10) * min 1 ((([] : List Row).length : ℚ) / 10)
              + (3/10) * (1 / (1 + |ltZero.stderr| + |ltZero.stderr|))
              + (2/5) * ((ltZero.rvalue ^ 2 + ltZero.rvalue ^ 2) / 2)))
      ∧ 1/10 ≤ calculate_bp_confidence [] ltZero ltZero
      ∧ calculate_bp_confidence [] ltZero ltZero ≤ 1
      ∧ 1/10 ≤ pyround (calculate_bp_confidence [] ltZero ltZero) 3
      ∧ pyround (calculate_bp_confidence [] ltZero ltZero) 3 ≤ 1)
    ∧ ((mkBPTrendResult "P" 1 2 3 4 ltZero ltZero (1/2) fTreated).trend_confidence
          = pyround (1/2) 3
      ∧ (mkBPTrendResult "P" 1 2 3 4 ltZero ltZero (1/2) fTreated).ci_sys_lo
          = pyround (3 - 10 * (1 - 1/2)) 1
      ∧ (mkBPTrendResult "P" 1 2 3 4 ltZero ltZero (1/2) fTreated).ci_sys_hi
          = pyround (3 + 10 * (1 - 1/2)) 1
      ∧ (mkBPTrendResult "P" 1 2 3 4 ltZero ltZero (1/2) fTreated).ci_dia_lo
          = pyround (4 - 7 * (1 - 1/2)) 1
      ∧ (mkBPTrendResult "P" 1 2 3 4 ltZero ltZero (1/2) fTreated).ci_dia_hi
          = pyround (4 + 7 * (1 - 1/2)) 1) :=
  ⟨c9_bp_confidence_and_intervals.1 [] ltZero ltZero,
   c9_bp_confidence_and_intervals.2 "P" 1 2 3 4 ltZero ltZero (1/2) fTreated⟩
